import Mathlib

/-!
Verification of the Star Wars REST API (Flask + SQLAlchemy, `src/app.py` and
`src/models.py`) via a shallow embedding: the relational store is a record of
lists of rows, each handler is a pure function from a store and a parsed JSON
request body to a response and a new store.  JSON values are a small inductive;
timestamps are modelled as the ISO strings they serialize to; row ids are `Nat`.
-/

/-- A JSON value, as produced by `jsonify` in the handlers. -/
inductive JsonVal where
  | null
  | str (s : String)
  | num (n : Nat)
  | bool (b : Bool)
  | arr (elems : List JsonVal)
  | obj (fields : List (String × JsonVal))

/-- Look up a key in a JSON object (first occurrence); `none` on non-objects. -/
def JsonVal.lookupField : JsonVal → String → Option JsonVal
  | .obj fs, k => (fs.find? (fun kv => kv.fst == k)).map (fun kv => kv.snd)
  | _, _ => none

/-- `{"error": msg}` bodies used by every failure branch in `app.py`. -/
def errJson (msg : String) : JsonVal :=
  .obj [("error", .str msg)]

/-- `{"message": msg}` bodies used by the delete handlers. -/
def msgJson (msg : String) : JsonVal :=
  .obj [("message", .str msg)]

/-- An HTTP response: status code plus JSON body. -/
structure Resp where
  status : Nat
  body : JsonVal

/-- Serialization of an optional string column: the string, or JSON null. -/
def jsonOfOptStr : Option String → JsonVal
  | none => .null
  | some s => .str s

/-- Row of the `users` table (`models.py`, class `User`). -/
structure User where
  id : Nat
  username : String
  email : String
  password_hash : String
  first_name : String
  last_name : String
  created_at : Option String
  is_active : Bool
deriving DecidableEq, Repr

/-- Row of the `characters` table (`models.py`, class `Character`). -/
structure Character where
  id : Nat
  name : String
  height : Option String
  mass : Option String
  hair_color : Option String
  skin_color : Option String
  eye_color : Option String
  birth_year : Option String
  gender : Option String
  homeworld_id : Option Nat
  description : Option String
  image_url : Option String
  created_at : Option String
deriving DecidableEq, Repr

/-- Row of the `planets` table (`models.py`, class `Planet`). -/
structure Planet where
  id : Nat
  name : String
  rotation_period : Option String
  orbital_period : Option String
  diameter : Option String
  climate : Option String
  gravity : Option String
  terrain : Option String
  surface_water : Option String
  population : Option String
  description : Option String
  image_url : Option String
  created_at : Option String
deriving DecidableEq, Repr

/-- Row of the `favorite_characters` table (`models.py`, class `FavoriteCharacter`). -/
structure FavoriteCharacter where
  id : Nat
  user_id : Nat
  character_id : Nat
  created_at : Option String
deriving DecidableEq, Repr

/-- Row of the `favorite_planets` table (`models.py`, class `FavoritePlanet`). -/
structure FavoritePlanet where
  id : Nat
  user_id : Nat
  planet_id : Nat
  created_at : Option String
deriving DecidableEq, Repr

/-- The relational store: one list of rows per table, plus per-table
autoincrement counters for server-generated primary keys. -/
structure Store where
  users : List User
  characters : List Character
  planets : List Planet
  favoriteCharacters : List FavoriteCharacter
  favoritePlanets : List FavoritePlanet
  nextCharacterId : Nat
  nextPlanetId : Nat
  nextFavoriteCharacterId : Nat
  nextFavoritePlanetId : Nat

/-- `Planet.serialize` (`models.py`). -/
def serializePlanet (p : Planet) : JsonVal :=
  .obj [
    ("id", .num p.id),
    ("name", .str p.name),
    ("rotation_period", jsonOfOptStr p.rotation_period),
    ("orbital_period", jsonOfOptStr p.orbital_period),
    ("diameter", jsonOfOptStr p.diameter),
    ("climate", jsonOfOptStr p.climate),
    ("gravity", jsonOfOptStr p.gravity),
    ("terrain", jsonOfOptStr p.terrain),
    ("surface_water", jsonOfOptStr p.surface_water),
    ("population", jsonOfOptStr p.population),
    ("description", jsonOfOptStr p.description),
    ("image_url", jsonOfOptStr p.image_url),
    ("created_at", jsonOfOptStr p.created_at)]

/-- `self.homeworld.serialize() if self.homeworld else None`: the `homeworld`
relationship resolves `homeworld_id` against the `planets` table; it is `None`
when the foreign key is null or matches no row. -/
def homeworldJson (s : Store) (c : Character) : JsonVal :=
  match c.homeworld_id with
  | none => .null
  | some hid =>
    match s.planets.find? (fun p => p.id == hid) with
    | none => .null
    | some p => serializePlanet p

/-- `Character.serialize` (`models.py`); takes the store to resolve the
`homeworld` relationship. -/
def serializeCharacter (s : Store) (c : Character) : JsonVal :=
  .obj [
    ("id", .num c.id),
    ("name", .str c.name),
    ("height", jsonOfOptStr c.height),
    ("mass", jsonOfOptStr c.mass),
    ("hair_color", jsonOfOptStr c.hair_color),
    ("skin_color", jsonOfOptStr c.skin_color),
    ("eye_color", jsonOfOptStr c.eye_color),
    ("birth_year", jsonOfOptStr c.birth_year),
    ("gender", jsonOfOptStr c.gender),
    ("homeworld", homeworldJson s c),
    ("description", jsonOfOptStr c.description),
    ("image_url", jsonOfOptStr c.image_url),
    ("created_at", jsonOfOptStr c.created_at)]

/-- `FavoriteCharacter.serialize` (`models.py`); the `character` relationship
resolves `character_id` against the `characters` table. -/
def serializeFavoriteCharacter (s : Store) (f : FavoriteCharacter) : JsonVal :=
  .obj [
    ("id", .num f.id),
    ("user_id", .num f.user_id),
    ("character_id", .num f.character_id),
    ("character",
      match s.characters.find? (fun c => c.id == f.character_id) with
      | none => .null
      | some c => serializeCharacter s c),
    ("created_at", jsonOfOptStr f.created_at)]

/-- `FavoritePlanet.serialize` (`models.py`); the `planet` relationship
resolves `planet_id` against the `planets` table. -/
def serializeFavoritePlanet (s : Store) (f : FavoritePlanet) : JsonVal :=
  .obj [
    ("id", .num f.id),
    ("user_id", .num f.user_id),
    ("planet_id", .num f.planet_id),
    ("planet",
      match s.planets.find? (fun p => p.id == f.planet_id) with
      | none => .null
      | some p => serializePlanet p),
    ("created_at", jsonOfOptStr f.created_at)]

/-- Parsed JSON body of a POST/PUT `/people` request.  Each column field is
`none` when its key is absent from the body; the inner option of the
double-option fields is the (possibly null) JSON value supplied.  `name` is
modelled as a string when present (the handlers treat a missing and an empty
name alike, via Python falsiness).  `extraKeys` records keys of the body that
match no column; the handlers ignore them except for body truthiness. -/
structure CharacterBody where
  name : Option String
  height : Option (Option String)
  mass : Option (Option String)
  hair_color : Option (Option String)
  skin_color : Option (Option String)
  eye_color : Option (Option String)
  birth_year : Option (Option String)
  gender : Option (Option String)
  homeworld_id : Option (Option Nat)
  description : Option (Option String)
  image_url : Option (Option String)
  extraKeys : List String
deriving DecidableEq, Repr

/-- Parsed JSON body of a POST/PUT `/planets` request (same conventions as
`CharacterBody`). -/
structure PlanetBody where
  name : Option String
  rotation_period : Option (Option String)
  orbital_period : Option (Option String)
  diameter : Option (Option String)
  climate : Option (Option String)
  gravity : Option (Option String)
  terrain : Option (Option String)
  surface_water : Option (Option String)
  population : Option (Option String)
  description : Option (Option String)
  image_url : Option (Option String)
  extraKeys : List String
deriving DecidableEq, Repr

/-- Python truthiness of the body dict: `not body` is true exactly when the
dict has no keys at all. -/
def charBodyIsEmpty (b : CharacterBody) : Bool :=
  b.name.isNone && b.height.isNone && b.mass.isNone && b.hair_color.isNone &&
  b.skin_color.isNone && b.eye_color.isNone && b.birth_year.isNone &&
  b.gender.isNone && b.homeworld_id.isNone && b.description.isNone &&
  b.image_url.isNone && b.extraKeys.isEmpty

/-- Python truthiness of a planet body dict. -/
def planetBodyIsEmpty (b : PlanetBody) : Bool :=
  b.name.isNone && b.rotation_period.isNone && b.orbital_period.isNone &&
  b.diameter.isNone && b.climate.isNone && b.gravity.isNone &&
  b.terrain.isNone && b.surface_water.isNone && b.population.isNone &&
  b.description.isNone && b.image_url.isNone && b.extraKeys.isEmpty

/-- The body with no keys at all (`{}`). -/
def emptyCharacterBody : CharacterBody :=
  ⟨none, none, none, none, none, none, none, none, none, none, none, []⟩

/-- The planet body with no keys at all (`{}`). -/
def emptyPlanetBody : PlanetBody :=
  ⟨none, none, none, none, none, none, none, none, none, none, none, []⟩

/-- The `Character(...)` constructor call in `create_person`: every column is
`body.get(key)`, i.e. the supplied value when the key is present, else null;
`id` is the next autoincrement value and `created_at` the insertion time. -/
def characterFromBody (s : Store) (b : CharacterBody) (n now : String) : Character :=
  { id := s.nextCharacterId
    name := n
    height := b.height.join
    mass := b.mass.join
    hair_color := b.hair_color.join
    skin_color := b.skin_color.join
    eye_color := b.eye_color.join
    birth_year := b.birth_year.join
    gender := b.gender.join
    homeworld_id := b.homeworld_id.join
    description := b.description.join
    image_url := b.image_url.join
    created_at := some now }

/-- The `Planet(...)` constructor call in `create_planet`. -/
def planetFromBody (s : Store) (b : PlanetBody) (n now : String) : Planet :=
  { id := s.nextPlanetId
    name := n
    rotation_period := b.rotation_period.join
    orbital_period := b.orbital_period.join
    diameter := b.diameter.join
    climate := b.climate.join
    gravity := b.gravity.join
    terrain := b.terrain.join
    surface_water := b.surface_water.join
    population := b.population.join
    description := b.description.join
    image_url := b.image_url.join
    created_at := some now }

/-- `POST /people` (`create_person` in `app.py`).  `body?` is `none` when the
request carried no JSON body; `now` is the insertion timestamp. -/
def create_person (s : Store) (body? : Option CharacterBody) (now : String) :
    Resp × Store :=
  match body? with
  | none => (⟨400, errJson "Request body is required"⟩, s)
  | some b =>
    if charBodyIsEmpty b then (⟨400, errJson "Request body is required"⟩, s)
    else
      match b.name with
      | none => (⟨400, errJson "Name is required"⟩, s)
      | some n =>
        if n = "" then (⟨400, errJson "Name is required"⟩, s)
        else if (s.characters.find? (fun c => c.name == n)).isSome then
          (⟨400, errJson "Character with this name already exists"⟩, s)
        else
          let c := characterFromBody s b n now
          let s' := { s with characters := s.characters ++ [c],
                             nextCharacterId := s.nextCharacterId + 1 }
          (⟨201, serializeCharacter s' c⟩, s')

/-- `POST /planets` (`create_planet` in `app.py`). -/
def create_planet (s : Store) (body? : Option PlanetBody) (now : String) :
    Resp × Store :=
  match body? with
  | none => (⟨400, errJson "Request body is required"⟩, s)
  | some b =>
    if planetBodyIsEmpty b then (⟨400, errJson "Request body is required"⟩, s)
    else
      match b.name with
      | none => (⟨400, errJson "Name is required"⟩, s)
      | some n =>
        if n = "" then (⟨400, errJson "Name is required"⟩, s)
        else if (s.planets.find? (fun p => p.name == n)).isSome then
          (⟨400, errJson "Planet with this name already exists"⟩, s)
        else
          let p := planetFromBody s b n now
          let s' := { s with planets := s.planets ++ [p],
                             nextPlanetId := s.nextPlanetId + 1 }
          (⟨201, serializePlanet p⟩, s')

/-- The `if key in body: entity.key = body[key]` block of `update_person`:
each column present in the body is overwritten with the supplied value,
absent columns keep their prior value. -/
def applyCharacterBody (c : Character) (b : CharacterBody) : Character :=
  { c with
    name := b.name.getD c.name
    height := b.height.getD c.height
    mass := b.mass.getD c.mass
    hair_color := b.hair_color.getD c.hair_color
    skin_color := b.skin_color.getD c.skin_color
    eye_color := b.eye_color.getD c.eye_color
    birth_year := b.birth_year.getD c.birth_year
    gender := b.gender.getD c.gender
    homeworld_id := b.homeworld_id.getD c.homeworld_id
    description := b.description.getD c.description
    image_url := b.image_url.getD c.image_url }

/-- The field-update block of `update_planet`. -/
def applyPlanetBody (p : Planet) (b : PlanetBody) : Planet :=
  { p with
    name := b.name.getD p.name
    rotation_period := b.rotation_period.getD p.rotation_period
    orbital_period := b.orbital_period.getD p.orbital_period
    diameter := b.diameter.getD p.diameter
    climate := b.climate.getD p.climate
    gravity := b.gravity.getD p.gravity
    terrain := b.terrain.getD p.terrain
    surface_water := b.surface_water.getD p.surface_water
    population := b.population.getD p.population
    description := b.description.getD p.description
    image_url := b.image_url.getD p.image_url }

/-- `PUT /people/{id}` (`update_person` in `app.py`). -/
def update_person (s : Store) (pid : Nat) (body? : Option CharacterBody) :
    Resp × Store :=
  match s.characters.find? (fun c => c.id == pid) with
  | none => (⟨404, errJson "Character not found"⟩, s)
  | some c =>
    match body? with
    | none => (⟨400, errJson "Request body is required"⟩, s)
    | some b =>
      if charBodyIsEmpty b then (⟨400, errJson "Request body is required"⟩, s)
      else
        let c' := applyCharacterBody c b
        let rows := s.characters.map (fun x => if x.id == pid then applyCharacterBody x b else x)
        let s' := { s with characters := rows }
        (⟨200, serializeCharacter s' c'⟩, s')

/-- `PUT /planets/{id}` (`update_planet` in `app.py`). -/
def update_planet (s : Store) (pid : Nat) (body? : Option PlanetBody) :
    Resp × Store :=
  match s.planets.find? (fun p => p.id == pid) with
  | none => (⟨404, errJson "Planet not found"⟩, s)
  | some p =>
    match body? with
    | none => (⟨400, errJson "Request body is required"⟩, s)
    | some b =>
      if planetBodyIsEmpty b then (⟨400, errJson "Request body is required"⟩, s)
      else
        let p' := applyPlanetBody p b
        let rows := s.planets.map (fun x => if x.id == pid then applyPlanetBody x b else x)
        let s' := { s with planets := rows }
        (⟨200, serializePlanet p'⟩, s')

/-- `DELETE /people/{id}` (`delete_person` in `app.py`): removes the row found
by primary key and confirms with a message naming the deleted character. -/
def delete_person (s : Store) (pid : Nat) : Resp × Store :=
  match s.characters.find? (fun c => c.id == pid) with
  | none => (⟨404, errJson "Character not found"⟩, s)
  | some c =>
    let s' := { s with characters := s.characters.eraseP (fun x => x.id == pid) }
    (⟨200, msgJson ("Character " ++ c.name ++ " deleted successfully")⟩, s')

/-- `DELETE /planets/{id}` (`delete_planet` in `app.py`). -/
def delete_planet (s : Store) (pid : Nat) : Resp × Store :=
  match s.planets.find? (fun p => p.id == pid) with
  | none => (⟨404, errJson "Planet not found"⟩, s)
  | some p =>
    let s' := { s with planets := s.planets.eraseP (fun x => x.id == pid) }
    (⟨200, msgJson ("Planet " ++ p.name ++ " deleted successfully")⟩, s')

/-- `POST /favorite/planet/{id}` (`add_favorite_planet` in `app.py`); the
current user is hardcoded to id 1. -/
def add_favorite_planet (s : Store) (planet_id : Nat) (now : String) :
    Resp × Store :=
  match s.users.find? (fun u => u.id == 1) with
  | none => (⟨404, errJson "User not found"⟩, s)
  | some _ =>
    match s.planets.find? (fun p => p.id == planet_id) with
    | none => (⟨404, errJson "Planet not found"⟩, s)
    | some _ =>
      match s.favoritePlanets.find?
          (fun f => f.user_id == 1 && f.planet_id == planet_id) with
      | some _ => (⟨400, errJson "Planet is already in favorites"⟩, s)
      | none =>
        let f : FavoritePlanet :=
          { id := s.nextFavoritePlanetId, user_id := 1, planet_id := planet_id,
            created_at := some now }
        let s' := { s with favoritePlanets := s.favoritePlanets ++ [f],
                           nextFavoritePlanetId := s.nextFavoritePlanetId + 1 }
        (⟨201, serializeFavoritePlanet s' f⟩, s')

/-- `POST /favorite/people/{id}` (`add_favorite_people` in `app.py`). -/
def add_favorite_people (s : Store) (people_id : Nat) (now : String) :
    Resp × Store :=
  match s.users.find? (fun u => u.id == 1) with
  | none => (⟨404, errJson "User not found"⟩, s)
  | some _ =>
    match s.characters.find? (fun c => c.id == people_id) with
    | none => (⟨404, errJson "Character not found"⟩, s)
    | some _ =>
      match s.favoriteCharacters.find?
          (fun f => f.user_id == 1 && f.character_id == people_id) with
      | some _ => (⟨400, errJson "Character is already in favorites"⟩, s)
      | none =>
        let f : FavoriteCharacter :=
          { id := s.nextFavoriteCharacterId, user_id := 1, character_id := people_id,
            created_at := some now }
        let s' := { s with favoriteCharacters := s.favoriteCharacters ++ [f],
                           nextFavoriteCharacterId := s.nextFavoriteCharacterId + 1 }
        (⟨201, serializeFavoriteCharacter s' f⟩, s')

/-- Deletion of a `User` row.  `app.py` exposes no user-delete endpoint; this
embeds `db.session.delete(user)` under the relationships declared in
`models.py` (`User.favorite_characters` and `User.favorite_planets`, both with
`cascade='all, delete-orphan'`): deleting a user also deletes every favorite
row whose `user_id` is that user's id. -/
def delete_user (s : Store) (uid : Nat) : Store :=
  { s with
    users := s.users.eraseP (fun u => u.id == uid)
    favoriteCharacters := s.favoriteCharacters.filter (fun f => f.user_id != uid)
    favoritePlanets := s.favoritePlanets.filter (fun f => f.user_id != uid) }

/-- The store immediately after a successful `create_person`. -/
def storeAfterCreateCharacter (s : Store) (b : CharacterBody) (n now : String) : Store :=
  { s with characters := s.characters ++ [characterFromBody s b n now],
           nextCharacterId := s.nextCharacterId + 1 }

/-- The store immediately after a successful `create_planet`. -/
def storeAfterCreatePlanet (s : Store) (b : PlanetBody) (n now : String) : Store :=
  { s with planets := s.planets ++ [planetFromBody s b n now],
           nextPlanetId := s.nextPlanetId + 1 }

/-- Sample user with id 1 (the hardcoded current user). -/
def sampleUser : User :=
  { id := 1, username := "ana", email := "ana@example.com", password_hash := "h",
    first_name := "Ana", last_name := "R", created_at := none, is_active := true }

/-- Sample planet with id 1. -/
def tatooine : Planet :=
  { id := 1, name := "Tatooine", rotation_period := none, orbital_period := none,
    diameter := none, climate := none, gravity := none, terrain := none,
    surface_water := none, population := none, description := none,
    image_url := none, created_at := none }

/-- Sample character with id 1 whose homeworld is planet 1. -/
def luke : Character :=
  { id := 1, name := "Luke Skywalker", height := none, mass := none,
    hair_color := none, skin_color := none, eye_color := none, birth_year := none,
    gender := none, homeworld_id := some 1, description := none,
    image_url := none, created_at := none }

/-- Sample character with id 2 and no homeworld. -/
def leia : Character :=
  { id := 2, name := "Leia Organa", height := none, mass := none,
    hair_color := none, skin_color := none, eye_color := none, birth_year := none,
    gender := none, homeworld_id := none, description := none,
    image_url := none, created_at := none }

/-- A character whose name is the empty string (reachable: `update_person`
accepts any string for `name`, including `""`). -/
def blankNameChar : Character :=
  { id := 3, name := "", height := none, mass := none,
    hair_color := none, skin_color := none, eye_color := none, birth_year := none,
    gender := none, homeworld_id := none, description := none,
    image_url := none, created_at := none }

/-- Sample store: user 1, characters Luke and Leia, planet Tatooine, no
favorites. -/
def baseStore : Store :=
  { users := [sampleUser], characters := [luke, leia], planets := [tatooine],
    favoriteCharacters := [], favoritePlanets := [],
    nextCharacterId := 3, nextPlanetId := 2,
    nextFavoriteCharacterId := 1, nextFavoritePlanetId := 1 }

/-- Store holding only a character whose name is the empty string. -/
def blankNameStore : Store :=
  { users := [sampleUser], characters := [blankNameChar], planets := [],
    favoriteCharacters := [], favoritePlanets := [],
    nextCharacterId := 4, nextPlanetId := 1,
    nextFavoriteCharacterId := 1, nextFavoritePlanetId := 1 }

/-- `{"name": "Han Solo"}`. -/
def hanBody : CharacterBody :=
  { emptyCharacterBody with name := some "Han Solo" }

/-- `{"name": "Luke Skywalker"}`. -/
def lukeBody : CharacterBody :=
  { emptyCharacterBody with name := some "Luke Skywalker" }

/-- `{"name": ""}`. -/
def blankNameBody : CharacterBody :=
  { emptyCharacterBody with name := some "" }

/-- `{"name": "Hoth"}`. -/
def hothBody : PlanetBody :=
  { emptyPlanetBody with name := some "Hoth" }

/-- `{"name": "Tatooine"}`. -/
def tatooineBody : PlanetBody :=
  { emptyPlanetBody with name := some "Tatooine" }

/-- `{"name": "Leia Organa"}` as an update body (used to rename Luke). -/
def renameToLeiaBody : CharacterBody :=
  { emptyCharacterBody with name := some "Leia Organa" }

/-- `{"height": "172"}` as a partial update body. -/
def heightOnlyBody : CharacterBody :=
  { emptyCharacterBody with height := some (some "172") }

/-- `{"climate": "arid"}` as a partial planet update body. -/
def climateOnlyBody : PlanetBody :=
  { emptyPlanetBody with climate := some (some "arid") }

/-- Second sample user, id 2. -/
def otherUser : User :=
  { id := 2, username := "ben", email := "ben@example.com", password_hash := "h",
    first_name := "Ben", last_name := "K", created_at := none, is_active := true }

/-- Store with favorites of two users, for the cascade-delete claim. -/
def favStore : Store :=
  { users := [sampleUser, otherUser], characters := [luke, leia], planets := [tatooine],
    favoriteCharacters := [⟨1, 1, 1, none⟩, ⟨2, 2, 1, none⟩],
    favoritePlanets := [⟨1, 1, 1, none⟩],
    nextCharacterId := 3, nextPlanetId := 2,
    nextFavoriteCharacterId := 3, nextFavoritePlanetId := 2 }

/-- The store immediately after a successful `update_person`. -/
def storeAfterUpdateCharacter (s : Store) (pid : Nat) (b : CharacterBody) : Store :=
  { s with characters := s.characters.map (fun x => if x.id == pid then applyCharacterBody x b else x) }

/-- The store immediately after a successful `update_planet`. -/
def storeAfterUpdatePlanet (s : Store) (pid : Nat) (b : PlanetBody) : Store :=
  { s with planets := s.planets.map (fun x => if x.id == pid then applyPlanetBody x b else x) }

/-- Helper: mapping an update over exactly the rows matching a predicate, when
the update preserves the predicate, maps `find?`. -/
theorem find?_map_update {α : Type} (p : α → Bool) (f : α → α)
    (hf : ∀ x, p x = true → p (f x) = true) :
    ∀ (l : List α) (a : α), l.find? p = some a →
      (l.map (fun x => if p x then f x else x)).find? p = some (f a) := by
  intro l
  induction l with
  | nil => intro a h; simp at h
  | cons x xs ih =>
    intro a h
    by_cases hx : p x = true
    · rw [List.find?_cons_of_pos _ hx] at h
      cases h
      simp only [List.map_cons, if_pos hx]
      rw [List.find?_cons_of_pos _ (hf x hx)]
    · rw [List.find?_cons_of_neg _ (by simpa using hx)] at h
      simp only [List.map_cons, if_neg hx]
      rw [List.find?_cons_of_neg _ (by simpa using hx)]
      exact ih a h

/-- C1: for every create request to POST /people or POST /planets: a missing
body, or a body whose `name` is missing or empty, yields status 400; a `name`
already borne by a stored row of the same type yields the duplicate error;
otherwise exactly one new row is appended, with server-generated id and
created_at, and its serialization is returned with status 201. -/
theorem create_endpoints_spec :
    (∀ s now, create_person s none now = (⟨400, errJson "Request body is required"⟩, s))
  ∧ (∀ s now b, charBodyIsEmpty b = true →
      create_person s (some b) now = (⟨400, errJson "Request body is required"⟩, s))
  ∧ (∀ s now b, charBodyIsEmpty b = false → (b.name = none ∨ b.name = some "") →
      create_person s (some b) now = (⟨400, errJson "Name is required"⟩, s))
  ∧ (∀ s now b n, charBodyIsEmpty b = false → b.name = some n → n ≠ "" →
      (s.characters.find? (fun c => c.name == n)).isSome = true →
      create_person s (some b) now =
        (⟨400, errJson "Character with this name already exists"⟩, s))
  ∧ (∀ s now b n, charBodyIsEmpty b = false → b.name = some n → n ≠ "" →
      s.characters.find? (fun c => c.name == n) = none →
      create_person s (some b) now =
        (⟨201, serializeCharacter (storeAfterCreateCharacter s b n now)
            (characterFromBody s b n now)⟩, storeAfterCreateCharacter s b n now)
      ∧ (storeAfterCreateCharacter s b n now).characters
          = s.characters ++ [characterFromBody s b n now]
      ∧ (characterFromBody s b n now).id = s.nextCharacterId
      ∧ (characterFromBody s b n now).created_at = some now)
  ∧ (∀ s now, create_planet s none now = (⟨400, errJson "Request body is required"⟩, s))
  ∧ (∀ s now b, planetBodyIsEmpty b = true →
      create_planet s (some b) now = (⟨400, errJson "Request body is required"⟩, s))
  ∧ (∀ s now b, planetBodyIsEmpty b = false → (b.name = none ∨ b.name = some "") →
      create_planet s (some b) now = (⟨400, errJson "Name is required"⟩, s))
  ∧ (∀ s now b n, planetBodyIsEmpty b = false → b.name = some n → n ≠ "" →
      (s.planets.find? (fun p => p.name == n)).isSome = true →
      create_planet s (some b) now =
        (⟨400, errJson "Planet with this name already exists"⟩, s))
  ∧ (∀ s now b n, planetBodyIsEmpty b = false → b.name = some n → n ≠ "" →
      s.planets.find? (fun p => p.name == n) = none →
      create_planet s (some b) now =
        (⟨201, serializePlanet (planetFromBody s b n now)⟩, storeAfterCreatePlanet s b n now)
      ∧ (storeAfterCreatePlanet s b n now).planets
          = s.planets ++ [planetFromBody s b n now]
      ∧ (planetFromBody s b n now).id = s.nextPlanetId
      ∧ (planetFromBody s b n now).created_at = some now) := by
  refine ⟨?_, ?_, ?_, ?_, ?_, ?_, ?_, ?_, ?_, ?_⟩
  · intro s now; rfl
  · intro s now b h; simp [create_person, h]
  · intro s now b h h0
    rcases h0 with h0 | h0 <;> simp [create_person, h, h0]
  · intro s now b n h hn hne hf
    simp [create_person, h, hn, hne, hf]
  · intro s now b n h hn hne hf
    refine ⟨?_, rfl, rfl, rfl⟩
    simp [create_person, h, hn, hne, hf, storeAfterCreateCharacter]
  · intro s now; rfl
  · intro s now b h; simp [create_planet, h]
  · intro s now b h h0
    rcases h0 with h0 | h0 <;> simp [create_planet, h, h0]
  · intro s now b n h hn hne hf
    simp [create_planet, h, hn, hne, hf]
  · intro s now b n h hn hne hf
    refine ⟨?_, rfl, rfl, rfl⟩
    simp [create_planet, h, hn, hne, hf, storeAfterCreatePlanet]

/-- Witness for C1: creating `{"name": "Han Solo"}` in the sample store
succeeds with status 201, and creating `{"name": "Hoth"}` likewise. -/
theorem create_endpoints_spec_witness :
    (create_person baseStore (some hanBody) "T").fst.status = 201
  ∧ (create_planet baseStore (some hothBody) "T").fst.status = 201 := by
  constructor
  · have h := create_endpoints_spec.2.2.2.2.1 baseStore "T" hanBody "Han Solo"
      (by decide) (by decide) (by decide) (by decide)
    rw [h.1]
  · have h := create_endpoints_spec.2.2.2.2.2.2.2.2.2 baseStore "T" hothBody "Hoth"
      (by decide) (by decide) (by decide) (by decide)
    rw [h.1]

/-- C2 counterexample: in a store holding a character whose name is the empty
string (reachable via PUT), the create request `{"name": ""}` has a `name`
equal to a stored character's name, yet the handler answers with the
"Name is required" body, not the duplicate-name body.  The claim as stated is
therefore false. -/
theorem create_duplicate_name_counterexample :
    blankNameBody.name = some ""
  ∧ (blankNameStore.characters.find? (fun c => c.name == "")).isSome = true
  ∧ (create_person blankNameStore (some blankNameBody) "T").fst.status = 400
  ∧ (create_person blankNameStore (some blankNameBody) "T").fst.body
      = errJson "Name is required"
  ∧ (create_person blankNameStore (some blankNameBody) "T").fst.body
      ≠ errJson "Character with this name already exists" := by
  refine ⟨rfl, rfl, rfl, rfl, ?_⟩
  intro h
  rw [show (create_person blankNameStore (some blankNameBody) "T").fst.body
        = errJson "Name is required" from rfl] at h
  simp [errJson] at h

/-- C2 (amended): for every store state and every create request whose `name`
is present and non-empty and equals the `name` of an already-stored Character
(resp. Planet), the handler returns status 400 with the duplicate-name error
body and the store after the request equals the store before it. -/
theorem create_duplicate_name_conflict :
    (∀ s b n now, b.name = some n → n ≠ "" →
      (s.characters.find? (fun c => c.name == n)).isSome = true →
      create_person s (some b) now =
        (⟨400, errJson "Character with this name already exists"⟩, s))
  ∧ (∀ s b n now, b.name = some n → n ≠ "" →
      (s.planets.find? (fun p => p.name == n)).isSome = true →
      create_planet s (some b) now =
        (⟨400, errJson "Planet with this name already exists"⟩, s)) := by
  constructor
  · intro s b n now hn hne hf
    have hemp : charBodyIsEmpty b = false := by simp [charBodyIsEmpty, hn]
    simp [create_person, hemp, hn, hne, hf]
  · intro s b n now hn hne hf
    have hemp : planetBodyIsEmpty b = false := by simp [planetBodyIsEmpty, hn]
    simp [create_planet, hemp, hn, hne, hf]

/-- Witness for C2 (amended): re-posting `{"name": "Luke Skywalker"}` and
`{"name": "Tatooine"}` against the sample store yields the duplicate errors
and leaves the store unchanged. -/
theorem create_duplicate_name_conflict_witness :
    create_person baseStore (some lukeBody) "T" =
      (⟨400, errJson "Character with this name already exists"⟩, baseStore)
  ∧ create_planet baseStore (some tatooineBody) "T" =
      (⟨400, errJson "Planet with this name already exists"⟩, baseStore) := by
  refine ⟨create_duplicate_name_conflict.1 baseStore lukeBody "Luke Skywalker" "T"
      (by decide) (by decide) (by decide),
    create_duplicate_name_conflict.2 baseStore tatooineBody "Tatooine" "T"
      (by decide) (by decide) (by decide)⟩

/-- C3: for every existing Character resp. Planet and every non-empty update
body, PUT sets exactly the fields whose keys are present in the body to the
supplied values, every absent field keeps its pre-update value, and the
handler returns the serialized updated entity with status 200. -/
theorem update_endpoints_frame :
    (∀ s pid c b, s.characters.find? (fun x => x.id == pid) = some c →
      charBodyIsEmpty b = false →
      update_person s pid (some b) =
        (⟨200, serializeCharacter (storeAfterUpdateCharacter s pid b) (applyCharacterBody c b)⟩,
          storeAfterUpdateCharacter s pid b)
      ∧ (storeAfterUpdateCharacter s pid b).characters.find? (fun x => x.id == pid)
          = some (applyCharacterBody c b)
      ∧ (∀ v, b.name = some v → (applyCharacterBody c b).name = v)
      ∧ (b.name = none → (applyCharacterBody c b).name = c.name)
      ∧ (∀ v, b.height = some v → (applyCharacterBody c b).height = v)
      ∧ (b.height = none → (applyCharacterBody c b).height = c.height)
      ∧ (∀ v, b.mass = some v → (applyCharacterBody c b).mass = v)
      ∧ (b.mass = none → (applyCharacterBody c b).mass = c.mass)
      ∧ (∀ v, b.hair_color = some v → (applyCharacterBody c b).hair_color = v)
      ∧ (b.hair_color = none → (applyCharacterBody c b).hair_color = c.hair_color)
      ∧ (∀ v, b.skin_color = some v → (applyCharacterBody c b).skin_color = v)
      ∧ (b.skin_color = none → (applyCharacterBody c b).skin_color = c.skin_color)
      ∧ (∀ v, b.eye_color = some v → (applyCharacterBody c b).eye_color = v)
      ∧ (b.eye_color = none → (applyCharacterBody c b).eye_color = c.eye_color)
      ∧ (∀ v, b.birth_year = some v → (applyCharacterBody c b).birth_year = v)
      ∧ (b.birth_year = none → (applyCharacterBody c b).birth_year = c.birth_year)
      ∧ (∀ v, b.gender = some v → (applyCharacterBody c b).gender = v)
      ∧ (b.gender = none → (applyCharacterBody c b).gender = c.gender)
      ∧ (∀ v, b.homeworld_id = some v → (applyCharacterBody c b).homeworld_id = v)
      ∧ (b.homeworld_id = none → (applyCharacterBody c b).homeworld_id = c.homeworld_id)
      ∧ (∀ v, b.description = some v → (applyCharacterBody c b).description = v)
      ∧ (b.description = none → (applyCharacterBody c b).description = c.description)
      ∧ (∀ v, b.image_url = some v → (applyCharacterBody c b).image_url = v)
      ∧ (b.image_url = none → (applyCharacterBody c b).image_url = c.image_url)
      ∧ (applyCharacterBody c b).id = c.id
      ∧ (applyCharacterBody c b).created_at = c.created_at)
  ∧ (∀ s pid p b, s.planets.find? (fun x => x.id == pid) = some p →
      planetBodyIsEmpty b = false →
      update_planet s pid (some b) =
        (⟨200, serializePlanet (applyPlanetBody p b)⟩, storeAfterUpdatePlanet s pid b)
      ∧ (storeAfterUpdatePlanet s pid b).planets.find? (fun x => x.id == pid)
          = some (applyPlanetBody p b)
      ∧ (∀ v, b.name = some v → (applyPlanetBody p b).name = v)
      ∧ (b.name = none → (applyPlanetBody p b).name = p.name)
      ∧ (∀ v, b.rotation_period = some v → (applyPlanetBody p b).rotation_period = v)
      ∧ (b.rotation_period = none → (applyPlanetBody p b).rotation_period = p.rotation_period)
      ∧ (∀ v, b.orbital_period = some v → (applyPlanetBody p b).orbital_period = v)
      ∧ (b.orbital_period = none → (applyPlanetBody p b).orbital_period = p.orbital_period)
      ∧ (∀ v, b.diameter = some v → (applyPlanetBody p b).diameter = v)
      ∧ (b.diameter = none → (applyPlanetBody p b).diameter = p.diameter)
      ∧ (∀ v, b.climate = some v → (applyPlanetBody p b).climate = v)
      ∧ (b.climate = none → (applyPlanetBody p b).climate = p.climate)
      ∧ (∀ v, b.gravity = some v → (applyPlanetBody p b).gravity = v)
      ∧ (b.gravity = none → (applyPlanetBody p b).gravity = p.gravity)
      ∧ (∀ v, b.terrain = some v → (applyPlanetBody p b).terrain = v)
      ∧ (b.terrain = none → (applyPlanetBody p b).terrain = p.terrain)
      ∧ (∀ v, b.surface_water = some v → (applyPlanetBody p b).surface_water = v)
      ∧ (b.surface_water = none → (applyPlanetBody p b).surface_water = p.surface_water)
      ∧ (∀ v, b.population = some v → (applyPlanetBody p b).population = v)
      ∧ (b.population = none → (applyPlanetBody p b).population = p.population)
      ∧ (∀ v, b.description = some v → (applyPlanetBody p b).description = v)
      ∧ (b.description = none → (applyPlanetBody p b).description = p.description)
      ∧ (∀ v, b.image_url = some v → (applyPlanetBody p b).image_url = v)
      ∧ (b.image_url = none → (applyPlanetBody p b).image_url = p.image_url)
      ∧ (applyPlanetBody p b).id = p.id
      ∧ (applyPlanetBody p b).created_at = p.created_at) := by
  constructor
  · intro s pid c b hfind hemp
    exact ⟨by simp [update_person, hfind, hemp, storeAfterUpdateCharacter],
      find?_map_update (fun x => x.id == pid) (fun x => applyCharacterBody x b)
        (fun x hx => hx) s.characters c hfind,
      fun v hv => by simp [applyCharacterBody, hv],
      fun hv => by simp [applyCharacterBody, hv],
      fun v hv => by simp [applyCharacterBody, hv],
      fun hv => by simp [applyCharacterBody, hv],
      fun v hv => by simp [applyCharacterBody, hv],
      fun hv => by simp [applyCharacterBody, hv],
      fun v hv => by simp [applyCharacterBody, hv],
      fun hv => by simp [applyCharacterBody, hv],
      fun v hv => by simp [applyCharacterBody, hv],
      fun hv => by simp [applyCharacterBody, hv],
      fun v hv => by simp [applyCharacterBody, hv],
      fun hv => by simp [applyCharacterBody, hv],
      fun v hv => by simp [applyCharacterBody, hv],
      fun hv => by simp [applyCharacterBody, hv],
      fun v hv => by simp [applyCharacterBody, hv],
      fun hv => by simp [applyCharacterBody, hv],
      fun v hv => by simp [applyCharacterBody, hv],
      fun hv => by simp [applyCharacterBody, hv],
      fun v hv => by simp [applyCharacterBody, hv],
      fun hv => by simp [applyCharacterBody, hv],
      fun v hv => by simp [applyCharacterBody, hv],
      fun hv => by simp [applyCharacterBody, hv],
      rfl, rfl⟩
  · intro s pid p b hfind hemp
    exact ⟨by simp [update_planet, hfind, hemp, storeAfterUpdatePlanet],
      find?_map_update (fun x => x.id == pid) (fun x => applyPlanetBody x b)
        (fun x hx => hx) s.planets p hfind,
      fun v hv => by simp [applyPlanetBody, hv],
      fun hv => by simp [applyPlanetBody, hv],
      fun v hv => by simp [applyPlanetBody, hv],
      fun hv => by simp [applyPlanetBody, hv],
      fun v hv => by simp [applyPlanetBody, hv],
      fun hv => by simp [applyPlanetBody, hv],
      fun v hv => by simp [applyPlanetBody, hv],
      fun hv => by simp [applyPlanetBody, hv],
      fun v hv => by simp [applyPlanetBody, hv],
      fun hv => by simp [applyPlanetBody, hv],
      fun v hv => by simp [applyPlanetBody, hv],
      fun hv => by simp [applyPlanetBody, hv],
      fun v hv => by simp [applyPlanetBody, hv],
      fun hv => by simp [applyPlanetBody, hv],
      fun v hv => by simp [applyPlanetBody, hv],
      fun hv => by simp [applyPlanetBody, hv],
      fun v hv => by simp [applyPlanetBody, hv],
      fun hv => by simp [applyPlanetBody, hv],
      fun v hv => by simp [applyPlanetBody, hv],
      fun hv => by simp [applyPlanetBody, hv],
      fun v hv => by simp [applyPlanetBody, hv],
      fun hv => by simp [applyPlanetBody, hv],
      rfl, rfl⟩

/-- Witness for C3: updating character 1 of the sample store with
`{"height": "172"}` answers 200, stores the row with the new height and the
old name, and updating planet 1 with `{"climate": "arid"}` answers 200. -/
theorem update_endpoints_frame_witness :
    (update_person baseStore 1 (some heightOnlyBody)).fst.status = 200
  ∧ (update_person baseStore 1 (some heightOnlyBody)).snd.characters.find? (fun x => x.id == 1)
      = some (applyCharacterBody luke heightOnlyBody)
  ∧ (applyCharacterBody luke heightOnlyBody).height = some "172"
  ∧ (applyCharacterBody luke heightOnlyBody).name = luke.name
  ∧ (update_planet baseStore 1 (some climateOnlyBody)).fst.status = 200 := by
  refine ⟨?_, ?_, ?_, ?_, ?_⟩
  · have h := update_endpoints_frame.1 baseStore 1 luke heightOnlyBody rfl rfl
    rw [h.1]
  · have h := update_endpoints_frame.1 baseStore 1 luke heightOnlyBody rfl rfl
    rw [h.1]
    exact h.2.1
  · have h := update_endpoints_frame.1 baseStore 1 luke heightOnlyBody rfl rfl
    exact h.2.2.2.2.1 (some "172") rfl
  · have h := update_endpoints_frame.1 baseStore 1 luke heightOnlyBody rfl rfl
    exact h.2.2.2.1 rfl
  · have h := update_endpoints_frame.2 baseStore 1 tatooine climateOnlyBody rfl rfl
    rw [h.1]

/-- C4: when user 1 and the target planet (resp. character) exist and no
favorite row links them, two successive identical add-favorite calls answer
201 then 400, and afterwards exactly one favorite row carries that
(user_id, target_id) pair. -/
theorem add_favorite_twice :
    (∀ s pid now1 now2 u p,
      s.users.find? (fun x => x.id == 1) = some u →
      s.planets.find? (fun x => x.id == pid) = some p →
      s.favoritePlanets.find? (fun f => f.user_id == 1 && f.planet_id == pid) = none →
      (add_favorite_planet s pid now1).fst.status = 201
      ∧ (add_favorite_planet (add_favorite_planet s pid now1).snd pid now2).fst.status = 400
      ∧ ((add_favorite_planet (add_favorite_planet s pid now1).snd pid now2).snd.favoritePlanets.filter
            (fun f => f.user_id == 1 && f.planet_id == pid)).length = 1)
  ∧ (∀ s pid now1 now2 u c,
      s.users.find? (fun x => x.id == 1) = some u →
      s.characters.find? (fun x => x.id == pid) = some c →
      s.favoriteCharacters.find? (fun f => f.user_id == 1 && f.character_id == pid) = none →
      (add_favorite_people s pid now1).fst.status = 201
      ∧ (add_favorite_people (add_favorite_people s pid now1).snd pid now2).fst.status = 400
      ∧ ((add_favorite_people (add_favorite_people s pid now1).snd pid now2).snd.favoriteCharacters.filter
            (fun f => f.user_id == 1 && f.character_id == pid)).length = 1) := by
  constructor
  · intro s pid now1 now2 u p hu hp hf
    have hfilter : s.favoritePlanets.filter (fun f => f.user_id == 1 && f.planet_id == pid) = [] := by
      rw [List.filter_eq_nil_iff]
      exact List.find?_eq_none.mp hf
    refine ⟨?_, ?_, ?_⟩ <;>
      simp [add_favorite_planet, hu, hp, hf, List.find?_append, List.filter_append, hfilter]
  · intro s pid now1 now2 u c hu hc hf
    have hfilter : s.favoriteCharacters.filter (fun f => f.user_id == 1 && f.character_id == pid) = [] := by
      rw [List.filter_eq_nil_iff]
      exact List.find?_eq_none.mp hf
    refine ⟨?_, ?_, ?_⟩ <;>
      simp [add_favorite_people, hu, hc, hf, List.find?_append, List.filter_append, hfilter]

/-- Witness for C4: favoriting planet 1 then character 1 twice each in the
sample store gives 201 then 400 and a single favorite row per pair. -/
theorem add_favorite_twice_witness :
    (add_favorite_planet baseStore 1 "T1").fst.status = 201
  ∧ (add_favorite_planet (add_favorite_planet baseStore 1 "T1").snd 1 "T2").fst.status = 400
  ∧ ((add_favorite_planet (add_favorite_planet baseStore 1 "T1").snd 1 "T2").snd.favoritePlanets.filter
        (fun f => f.user_id == 1 && f.planet_id == 1)).length = 1
  ∧ (add_favorite_people baseStore 2 "T1").fst.status = 201
  ∧ (add_favorite_people (add_favorite_people baseStore 2 "T1").snd 2 "T2").fst.status = 400
  ∧ ((add_favorite_people (add_favorite_people baseStore 2 "T1").snd 2 "T2").snd.favoriteCharacters.filter
        (fun f => f.user_id == 1 && f.character_id == 2)).length = 1 := by
  obtain ⟨h1, h2, h3⟩ := add_favorite_twice.1 baseStore 1 "T1" "T2" sampleUser tatooine rfl rfl rfl
  obtain ⟨h4, h5, h6⟩ := add_favorite_twice.2 baseStore 2 "T1" "T2" sampleUser leia rfl rfl rfl
  exact ⟨h1, h2, h3, h4, h5, h6⟩

/-- C5: the add-favorite handlers first require user 1 to exist (404
"User not found" otherwise), then the target to exist (404 "Planet not found"
resp. "Character not found" otherwise), in both cases leaving the store
unchanged. -/
theorem add_favorite_missing_target :
    (∀ s pid now, s.users.find? (fun x => x.id == 1) = none →
      add_favorite_planet s pid now = (⟨404, errJson "User not found"⟩, s)
      ∧ add_favorite_people s pid now = (⟨404, errJson "User not found"⟩, s))
  ∧ (∀ s pid now u, s.users.find? (fun x => x.id == 1) = some u →
      s.planets.find? (fun x => x.id == pid) = none →
      add_favorite_planet s pid now = (⟨404, errJson "Planet not found"⟩, s))
  ∧ (∀ s pid now u, s.users.find? (fun x => x.id == 1) = some u →
      s.characters.find? (fun x => x.id == pid) = none →
      add_favorite_people s pid now = (⟨404, errJson "Character not found"⟩, s)) := by
  refine ⟨?_, ?_, ?_⟩
  · intro s pid now hu
    exact ⟨by simp [add_favorite_planet, hu], by simp [add_favorite_people, hu]⟩
  · intro s pid now u hu hp
    simp [add_favorite_planet, hu, hp]
  · intro s pid now u hu hc
    simp [add_favorite_people, hu, hc]

/-- Witness for C5: POST /favorite/planet/5 against the sample store (user 1
exists, planet 5 does not) answers 404 with the "Planet not found" body. -/
theorem add_favorite_missing_target_witness :
    add_favorite_planet baseStore 5 "T" = (⟨404, errJson "Planet not found"⟩, baseStore) :=
  add_favorite_missing_target.2.1 baseStore 5 "T" sampleUser rfl rfl

/-- C6: deleting a user removes every favorite row of that user (the cascade
declared on `User.favorite_characters` and `User.favorite_planets`), and the
favorite rows of all other users are untouched. -/
theorem delete_user_cascade (s : Store) (u : User) (_hu : u ∈ s.users) :
    (∀ f ∈ (delete_user s u.id).favoriteCharacters, f.user_id ≠ u.id)
  ∧ (∀ f ∈ (delete_user s u.id).favoritePlanets, f.user_id ≠ u.id)
  ∧ (∀ f : FavoriteCharacter, f.user_id ≠ u.id →
      (f ∈ (delete_user s u.id).favoriteCharacters ↔ f ∈ s.favoriteCharacters))
  ∧ (∀ f : FavoritePlanet, f.user_id ≠ u.id →
      (f ∈ (delete_user s u.id).favoritePlanets ↔ f ∈ s.favoritePlanets)) := by
  refine ⟨?_, ?_, ?_, ?_⟩
  · intro f hf
    simp [delete_user, List.mem_filter] at hf
    exact hf.2
  · intro f hf
    simp [delete_user, List.mem_filter] at hf
    exact hf.2
  · intro f hne
    simp [delete_user, List.mem_filter, hne]
  · intro f hne
    simp [delete_user, List.mem_filter, hne]

/-- Witness for C6: deleting user 1 from the two-user store keeps user 2's
favorite-character row and the remaining row indeed belongs to user 2, not 1. -/
theorem delete_user_cascade_witness :
    ((⟨2, 2, 1, none⟩ : FavoriteCharacter) ∈ (delete_user favStore sampleUser.id).favoriteCharacters
      ↔ (⟨2, 2, 1, none⟩ : FavoriteCharacter) ∈ favStore.favoriteCharacters)
  ∧ (⟨2, 2, 1, none⟩ : FavoriteCharacter).user_id ≠ sampleUser.id := by
  refine ⟨?_, ?_⟩
  · exact (delete_user_cascade favStore sampleUser (by decide)).2.2.1 ⟨2, 2, 1, none⟩ (by decide)
  · exact (delete_user_cascade favStore sampleUser (by decide)).1 ⟨2, 2, 1, none⟩ (by decide)

/-- C7: DELETE on an existing character (resp. planet) removes that row and
answers 200 with a confirmation message containing the entity's name; DELETE
on an absent id answers 404 and leaves the store unchanged. -/
theorem delete_endpoints_spec :
    (∀ s pid c, s.characters.find? (fun x => x.id == pid) = some c →
      delete_person s pid =
        (⟨200, msgJson ("Character " ++ c.name ++ " deleted successfully")⟩,
          { s with characters := s.characters.eraseP (fun x => x.id == pid) })
      ∧ (∃ pre post, "Character " ++ c.name ++ " deleted successfully" = pre ++ c.name ++ post))
  ∧ (∀ s pid, s.characters.find? (fun x => x.id == pid) = none →
      delete_person s pid = (⟨404, errJson "Character not found"⟩, s))
  ∧ (∀ s pid p, s.planets.find? (fun x => x.id == pid) = some p →
      delete_planet s pid =
        (⟨200, msgJson ("Planet " ++ p.name ++ " deleted successfully")⟩,
          { s with planets := s.planets.eraseP (fun x => x.id == pid) })
      ∧ (∃ pre post, "Planet " ++ p.name ++ " deleted successfully" = pre ++ p.name ++ post))
  ∧ (∀ s pid, s.planets.find? (fun x => x.id == pid) = none →
      delete_planet s pid = (⟨404, errJson "Planet not found"⟩, s)) := by
  refine ⟨?_, ?_, ?_, ?_⟩
  · intro s pid c hfind
    exact ⟨by simp [delete_person, hfind],
      ⟨"Character ", " deleted successfully", by simp⟩⟩
  · intro s pid hfind
    simp [delete_person, hfind]
  · intro s pid p hfind
    exact ⟨by simp [delete_planet, hfind],
      ⟨"Planet ", " deleted successfully", by simp⟩⟩
  · intro s pid hfind
    simp [delete_planet, hfind]

/-- Witness for C7: deleting character 1 of the sample store answers 200 and
deleting planet 9 (absent) answers 404 leaving the store unchanged. -/
theorem delete_endpoints_spec_witness :
    (delete_person baseStore 1).fst.status = 200
  ∧ delete_planet baseStore 9 = (⟨404, errJson "Planet not found"⟩, baseStore) := by
  constructor
  · have h := (delete_endpoints_spec.1 baseStore 1 luke rfl).1
    rw [h]
  · exact delete_endpoints_spec.2.2.2 baseStore 9 rfl

/-- C8: a character's serialization carries under `homeworld` the full planet
serialization of its homeworld when `homeworld_id` matches a stored planet,
and JSON null when the character has no homeworld set. -/
theorem serialize_character_homeworld :
    (∀ s c, c.homeworld_id = none →
      (serializeCharacter s c).lookupField "homeworld" = some .null)
  ∧ (∀ s c hid p, c.homeworld_id = some hid →
      s.planets.find? (fun x => x.id == hid) = some p →
      (serializeCharacter s c).lookupField "homeworld" = some (serializePlanet p)) := by
  have hlook : ∀ s c, (serializeCharacter s c).lookupField "homeworld"
      = some (homeworldJson s c) := by
    intro s c; rfl
  constructor
  · intro s c h
    rw [hlook]
    simp [homeworldJson, h]
  · intro s c hid p h hfind
    rw [hlook]
    simp [homeworldJson, h, hfind]

/-- Witness for C8: in the sample store Luke's serialization embeds Tatooine
under `homeworld`, and Leia's carries null there. -/
theorem serialize_character_homeworld_witness :
    (serializeCharacter baseStore luke).lookupField "homeworld"
      = some (serializePlanet tatooine)
  ∧ (serializeCharacter baseStore leia).lookupField "homeworld" = some .null := by
  constructor
  · exact serialize_character_homeworld.2 baseStore luke 1 tatooine rfl rfl
  · exact serialize_character_homeworld.1 baseStore leia rfl

/-- C9: the update path performs no name-uniqueness check: renaming an
existing character to the name of a different stored character answers 200,
after which two stored characters with distinct ids share a name, so the
no-duplicate-names property of the create path is not preserved by all
operations. -/
theorem update_allows_duplicate_names
    (s : Store) (id1 id2 : Nat) (c1 c2 : Character)
    (h1 : s.characters.find? (fun x => x.id == id1) = some c1)
    (h2 : s.characters.find? (fun x => x.id == id2) = some c2)
    (hne : id1 ≠ id2) :
    (update_person s id1 (some { emptyCharacterBody with name := some c2.name })).fst.status = 200
  ∧ ∃ x ∈ (update_person s id1 (some { emptyCharacterBody with name := some c2.name })).snd.characters,
    ∃ y ∈ (update_person s id1 (some { emptyCharacterBody with name := some c2.name })).snd.characters,
      x.id ≠ y.id ∧ x.name = y.name := by
  have hemp : charBodyIsEmpty { emptyCharacterBody with name := some c2.name } = false := rfl
  have hc1id : c1.id = id1 := by have := List.find?_some h1; simpa using this
  have hc2id : c2.id = id2 := by have := List.find?_some h2; simpa using this
  have hstore : (update_person s id1
        (some { emptyCharacterBody with name := some c2.name })).snd.characters
      = s.characters.map (fun x => if x.id == id1 then
          applyCharacterBody x { emptyCharacterBody with name := some c2.name } else x) := by
    simp [update_person, h1, hemp]
  constructor
  · simp [update_person, h1, hemp]
  · rw [hstore]
    refine ⟨applyCharacterBody c1 { emptyCharacterBody with name := some c2.name }, ?_,
      c2, ?_, ?_, rfl⟩
    · have hmem := List.mem_map_of_mem
        (fun x => if x.id == id1 then
          applyCharacterBody x { emptyCharacterBody with name := some c2.name } else x)
        (List.mem_of_find?_eq_some h1)
      simpa [hc1id] using hmem
    · have hmem := List.mem_map_of_mem
        (fun x => if x.id == id1 then
          applyCharacterBody x { emptyCharacterBody with name := some c2.name } else x)
        (List.mem_of_find?_eq_some h2)
      simpa [hc2id, Ne.symm hne] using hmem
    · simpa [applyCharacterBody, hc1id, hc2id] using hne

/-- Witness for C9: renaming character 1 of the sample store to
"Leia Organa" answers 200 and leaves two distinct characters sharing that
name. -/
theorem update_allows_duplicate_names_witness :
    (update_person baseStore 1 (some renameToLeiaBody)).fst.status = 200
  ∧ ∃ x ∈ (update_person baseStore 1 (some renameToLeiaBody)).snd.characters,
    ∃ y ∈ (update_person baseStore 1 (some renameToLeiaBody)).snd.characters,
      x.id ≠ y.id ∧ x.name = y.name :=
  update_allows_duplicate_names baseStore 1 2 luke leia rfl rfl (by decide)

/-- C10: a PUT whose body is the empty JSON object is rejected exactly like a
missing body: status 400, body `{"error": "Request body is required"}`, store
unchanged. -/
theorem update_empty_body_rejected :
    (∀ s pid c, s.characters.find? (fun x => x.id == pid) = some c →
      update_person s pid (some emptyCharacterBody) =
        (⟨400, errJson "Request body is required"⟩, s))
  ∧ (∀ s pid p, s.planets.find? (fun x => x.id == pid) = some p →
      update_planet s pid (some emptyPlanetBody) =
        (⟨400, errJson "Request body is required"⟩, s)) := by
  constructor
  · intro s pid c hfind
    simp [update_person, hfind, charBodyIsEmpty, emptyCharacterBody]
  · intro s pid p hfind
    simp [update_planet, hfind, planetBodyIsEmpty, emptyPlanetBody]

/-- Witness for C10: PUT `{}` on character 1 and planet 1 of the sample store
answers 400 with the missing-body error and leaves the store unchanged. -/
theorem update_empty_body_rejected_witness :
    update_person baseStore 1 (some emptyCharacterBody) =
      (⟨400, errJson "Request body is required"⟩, baseStore)
  ∧ update_planet baseStore 1 (some emptyPlanetBody) =
      (⟨400, errJson "Request body is required"⟩, baseStore) :=
  ⟨update_empty_body_rejected.1 baseStore 1 luke rfl,
   update_empty_body_rejected.2 baseStore 1 tatooine rfl⟩
